import Mathlib

/-!
Verification of the appointment capacity-booking and reminder-scheduling
subsystem of the `dataikos-backend` service.

The model is a shallow embedding of the Python source:
* `app/utils/supabase_client.py` (class `DatabaseManager`, instance
  `db_manager`): the store operations on the `time_slots` and
  `appointments` tables;
* `app/crud.py` (class `CRUDHandler`): the booking engine
  (`create_appointment`, `cancel_appointment`);
* `app/utils/scheduler.py` (class `AppointmentScheduler`): the reminder
  update step `_send_reminder`;
* `app/config.py` (`Settings`): the configuration defaults read by the
  subsystem.

Records are modelled as structures holding exactly the fields the
subsystem reads or writes.  Timestamp fields (`created_at` /
`updated_at`, always freshly produced from the wall clock and never read
back by any of the operations under study) and the client-detail fields
of an appointment (`client_email`, `client_name`, `client_phone`,
`service`, `notes`, `order_id`, only forwarded to the e-mail layer) are
omitted.  Supabase row ids (UUID strings in production) are modelled as
naturals drawn from a per-store counter, which preserves the only
property the code relies on: freshness and uniqueness.

The Python dictionaries access `max_capacity` and `current_bookings`
through `dict.get(key, default)`; those two fields are therefore
`Option Int` in the model and every read goes through the same default
that the corresponding line of source uses.

Store-level transport failures (the `except` branches of
`increment_time_slot_bookings` and `delete_appointment`, which return
`False` after logging) are injected through an explicit `Faults` record,
so that the compensation path of `CRUDHandler.create_appointment` can be
exercised.
-/

/-- Configuration defaults from `app/config.py` (`Settings`): the values
taken when the corresponding environment variables are unset. -/
structure Settings where
  MAX_APPOINTMENTS_PER_SLOT : Int
  WORKING_HOURS_START : String
  WORKING_HOURS_END : String
  APPOINTMENT_REMINDER_HOURS : Int
deriving Repr, DecidableEq

def settings : Settings :=
  { MAX_APPOINTMENTS_PER_SLOT := 5
    WORKING_HOURS_START := "09:00"
    WORKING_HOURS_END := "18:00"
    APPOINTMENT_REMINDER_HOURS := 24 }

/-- A row of the `time_slots` table, with the fields the subsystem reads.
`max_capacity` and `current_bookings` are optional because the Python code
reads them with `slot.get('max_capacity', …)` / `slot.get('current_bookings', 0)`. -/
structure TimeSlot where
  id : Nat
  date : String
  start_time : String
  end_time : String
  max_capacity : Option Int
  current_bookings : Option Int
deriving Repr, DecidableEq

/-- A row of the `appointments` table, with the fields the subsystem
reads or writes (`status` and `reminder_sent` are written; `time_slot_id`
is read by `cancel_appointment`). -/
structure Appointment where
  id : Nat
  time_slot_id : Nat
  status : String
  reminder_sent : Bool
deriving Repr, DecidableEq

/-- The database state: the two tables the subsystem touches, plus the
fresh-id counter standing in for Supabase's row-id generation. -/
structure Store where
  time_slots : List TimeSlot
  appointments : List Appointment
  next_id : Nat
deriving Repr, DecidableEq

/-- Injected store-level transport failures: each flag forces the
`except`-branch (log and return `False`) of the named operation. -/
structure Faults where
  increment_fails : Bool
  delete_fails : Bool
deriving Repr, DecidableEq

def noFaults : Faults := { increment_fails := false, delete_fails := false }

/-- Stable insertion of a slot into a list sorted by `start_time`
(strict comparison, so existing rows with an equal key stay first). -/
def insertByStartTime (t : TimeSlot) : List TimeSlot → List TimeSlot
  | [] => [t]
  | u :: us =>
      if t.start_time < u.start_time then t :: u :: us
      else u :: insertByStartTime t us

/-- The `order("start_time")` of a Supabase select, modelled as a stable
insertion sort on the `start_time` string. -/
def sortByStartTime : List TimeSlot → List TimeSlot
  | [] => []
  | t :: ts => insertByStartTime t (sortByStartTime ts)

/-- `datetime.strftime('%H:%M')` on a minutes-of-day value: zero-padded
two-digit hours and minutes. -/
def fmtHHMM (m : Nat) : String :=
  let pad : Nat → String := fun n => if n < 10 then "0" ++ toString n else toString n
  pad (m / 60) ++ ":" ++ pad (m % 60)

/-- `s.split(sep)` over the character list of a string. -/
def splitChars (sep : Char) : List Char → List (List Char)
  | [] => [[]]
  | c :: cs =>
      match splitChars sep cs with
      | r :: rs => if c = sep then [] :: r :: rs else (c :: r) :: rs
      | [] => if c = sep then [[], []] else [[c]]

/-- `int(s)` on a string of decimal digits. -/
def decDigits (l : List Char) : Nat :=
  l.foldl (fun acc c => acc * 10 + (c.toNat - 48)) 0

/-- `map(int, s.split(':'))` on an `HH:MM` configuration string, giving
the hour and minute components. -/
def parseHHMM (str : String) : Nat × Nat :=
  match splitChars ':' str.data with
  | [h, m] => (decDigits h, decDigits m)
  | _ => (0, 0)

/-- The record produced by `get_available_slots` for one slot: the Python
code returns `{**slot, 'available_spots': …, 'is_available': …}`, the
stored row with two computed fields added. -/
structure AvailableSlot where
  slot : TimeSlot
  available_spots : Int
  is_available : Bool
deriving Repr, DecidableEq

namespace DatabaseManager

/-- `db_manager.get_time_slot`: select the row of `time_slots` with the
given id (first match, as `res.data[0]`). -/
def get_time_slot (s : Store) (slot_id : Nat) : Option TimeSlot :=
  s.time_slots.find? (fun t => t.id = slot_id)

/-- `db_manager.get_time_slots_by_date`: select the rows of `time_slots`
with the given date, ordered by `start_time`. -/
def get_time_slots_by_date (s : Store) (d : String) : List TimeSlot :=
  sortByStartTime (s.time_slots.filter (fun t => t.date = d))

/-- The `update({'current_bookings': n, …}).eq("id", slot_id).execute()`
call shared by the increment and decrement operations: writes every row
whose id matches and reports whether any row matched (`bool(res.data)`). -/
def update_slot_bookings (s : Store) (slot_id : Nat) (n : Int) : Bool × Store :=
  (s.time_slots.any (fun t => t.id = slot_id),
   { s with time_slots :=
       s.time_slots.map (fun t =>
         if t.id = slot_id then { t with current_bookings := some n } else t) })

/-- `db_manager.increment_time_slot_bookings`: fetch the slot, compute
`new_count = slot.get('current_bookings', 0) + 1`, write it back.  There
is no capacity check.  `flt.increment_fails` forces the `except` branch
(return `False`, store untouched). -/
def increment_time_slot_bookings (flt : Faults) (s : Store) (slot_id : Nat) :
    Bool × Store :=
  if flt.increment_fails then (false, s)
  else
    match get_time_slot s slot_id with
    | none => (false, s)
    | some slot =>
        let new_count := slot.current_bookings.getD 0 + 1
        update_slot_bookings s slot_id new_count

/-- `db_manager.decrement_time_slot_bookings`: fetch the slot, compute
`new_count = max(0, slot.get('current_bookings', 0) - 1)`, write it back. -/
def decrement_time_slot_bookings (s : Store) (slot_id : Nat) : Bool × Store :=
  match get_time_slot s slot_id with
  | none => (false, s)
  | some slot =>
      let new_count := max 0 (slot.current_bookings.getD 0 - 1)
      update_slot_bookings s slot_id new_count

/-- `db_manager.create_time_slot`: insert a row into `time_slots` (the
model's store does not fail, so the inserted row is always returned). -/
def create_time_slot (s : Store) (d start_t end_t : String) (cap cb : Int) :
    TimeSlot × Store :=
  let t : TimeSlot :=
    { id := s.next_id, date := d, start_time := start_t, end_time := end_t
      max_capacity := some cap, current_bookings := some cb }
  (t, { s with time_slots := s.time_slots ++ [t], next_id := s.next_id + 1 })

/-- The `while current_time < end_time` loop of
`db_manager.generate_time_slots_for_date`, over minutes of the day:
emit a slot exactly when `slot_end ≤ end_time`, then advance to
`slot_end`.  The `fuel` argument bounds the recursion; it is chosen large
enough in `generate_time_slots_for_date` that it is never exhausted for
any positive duration (for `duration = 0` the Python loop does not
terminate). -/
def genLoop (d : String) (dur : Nat) :
    Nat → Nat → Nat → Store → List TimeSlot × Store
  | 0, _, _, s => ([], s)
  | fuel + 1, current, endM, s =>
      if current < endM then
        let slot_end := current + dur
        if slot_end ≤ endM then
          let (t, s1) := create_time_slot s d (fmtHHMM current) (fmtHHMM slot_end)
            settings.MAX_APPOINTMENTS_PER_SLOT 0
          let (rest, s2) := genLoop d dur fuel slot_end endM s1
          (t :: rest, s2)
        else
          genLoop d dur fuel slot_end endM s
      else ([], s)

/-- `db_manager.generate_time_slots_for_date`: return the existing slots
unchanged if the date already has any, otherwise walk the configured
working hours in steps of `duration_minutes`, creating each slot whose
end does not pass `WORKING_HOURS_END`. -/
def generate_time_slots_for_date (s : Store) (d : String) (dur : Nat) :
    List TimeSlot × Store :=
  let existing := get_time_slots_by_date s d
  if existing = [] then
    let sh := parseHHMM settings.WORKING_HOURS_START
    let eh := parseHHMM settings.WORKING_HOURS_END
    let startM := sh.1 * 60 + sh.2
    let endM := eh.1 * 60 + eh.2
    genLoop d dur (endM + 1) startM endM s
  else (existing, s)

/-- `db_manager.get_available_slots`: for each slot of the date, compute
`available_spots = slot.get('max_capacity', settings.MAX_APPOINTMENTS_PER_SLOT)
- slot.get('current_bookings', 0)` and
`is_available = available_spots > 0`, and append the augmented record. -/
def get_available_slots (s : Store) (d : String) : List AvailableSlot :=
  let slots := get_time_slots_by_date s d
  slots.foldl
    (fun acc slot =>
      let max_capacity := slot.max_capacity.getD settings.MAX_APPOINTMENTS_PER_SLOT
      let current_bookings := slot.current_bookings.getD 0
      let available_spots := max_capacity - current_bookings
      acc ++ [{ slot := slot, available_spots := available_spots
                is_available := decide (available_spots > 0) }])
    []

/-- `db_manager.create_appointment`: insert a row into `appointments`
(the model's store does not fail, so the inserted row is returned). -/
def create_appointment (s : Store) (slot_id : Nat) (st : String) :
    Appointment × Store :=
  let a : Appointment :=
    { id := s.next_id, time_slot_id := slot_id, status := st, reminder_sent := false }
  (a, { s with appointments := s.appointments ++ [a], next_id := s.next_id + 1 })

/-- `db_manager.get_appointment`: select the row of `appointments` with
the given id (first match, as `res.data[0]`). -/
def get_appointment (s : Store) (aid : Nat) : Option Appointment :=
  s.appointments.find? (fun a => a.id = aid)

/-- A partial update to an appointment row, covering the two patches the
subsystem issues: `{'status': 'cancelled'}` and `{'reminder_sent': True}`. -/
structure ApptPatch where
  status : Option String
  reminder_sent : Option Bool
deriving Repr, DecidableEq

def applyPatch (p : ApptPatch) (a : Appointment) : Appointment :=
  { a with status := p.status.getD a.status
           reminder_sent := p.reminder_sent.getD a.reminder_sent }

/-- `db_manager.update_appointment`: patch every row whose id matches and
return the updated row (`res.data[0] if res.data else None`). -/
def update_appointment (s : Store) (aid : Nat) (p : ApptPatch) :
    Option Appointment × Store :=
  let s1 : Store :=
    { s with appointments :=
        s.appointments.map (fun a => if a.id = aid then applyPatch p a else a) }
  (get_appointment s1 aid, s1)

/-- `db_manager.delete_appointment`: delete every row whose id matches and
report whether any row matched (`bool(res.data)`).  `flt.delete_fails`
forces the `except` branch (return `False`, store untouched). -/
def delete_appointment (flt : Faults) (s : Store) (aid : Nat) : Bool × Store :=
  if flt.delete_fails then (false, s)
  else
    (s.appointments.any (fun a => a.id = aid),
     { s with appointments := s.appointments.filter (fun a => ¬ a.id = aid) })

end DatabaseManager

namespace CRUDHandler

/-- `CRUDHandler.create_appointment` (`app/crud.py`): fetch the slot
(`None` if absent), refuse when `current_bookings ≥ max_capacity`
(defaults `time_slot.get("max_capacity", 5)` and
`time_slot.get("current_bookings", 0)`), insert the appointment with
`status = "confirmed"`, then call `increment_time_slot_bookings`; if the
increment returns `False`, call `delete_appointment` on the new row —
discarding its result — and return `None`.  The confirmation e-mail has
no effect on the store and is omitted. -/
def create_appointment (flt : Faults) (s : Store) (slot_id : Nat) :
    Option Appointment × Store :=
  match DatabaseManager.get_time_slot s slot_id with
  | none => (none, s)
  | some time_slot =>
      let max_capacity := time_slot.max_capacity.getD 5
      let current_bookings := time_slot.current_bookings.getD 0
      if current_bookings ≥ max_capacity then (none, s)
      else
        let (appointment, s1) := DatabaseManager.create_appointment s slot_id "confirmed"
        match DatabaseManager.increment_time_slot_bookings flt s1 slot_id with
        | (true, s2) => (some appointment, s2)
        | (false, s2) =>
            let (_, s3) := DatabaseManager.delete_appointment flt s2 appointment.id
            (none, s3)

/-- `CRUDHandler.cancel_appointment` (`app/crud.py`): fetch the
appointment (`False` if absent — there is no check of its current
status), patch `status := "cancelled"`, and return the result of
`decrement_time_slot_bookings` on its slot. -/
def cancel_appointment (s : Store) (aid : Nat) : Bool × Store :=
  match DatabaseManager.get_appointment s aid with
  | none => (false, s)
  | some appointment =>
      let (updated, s1) :=
        DatabaseManager.update_appointment s aid
          { status := some "cancelled", reminder_sent := none }
      match updated with
      | none => (false, s1)
      | some _ =>
          DatabaseManager.decrement_time_slot_bookings s1 appointment.time_slot_id

end CRUDHandler

/-- Outcome of `email_service.send_appointment_reminder`: returned
`True`, returned `False`, or raised. -/
inductive NotifyOutcome
  | ok
  | failed
  | raised
deriving Repr, DecidableEq

namespace AppointmentScheduler

/-- `AppointmentScheduler._send_reminder` (`app/utils/scheduler.py`),
as it acts on the store: when the e-mail call returns `True`, the
appointment is patched with `{'reminder_sent': True}`; when it returns
`False` or raises, nothing is written and the failure is logged.  (The
source `await`s the synchronous `update_appointment`, which raises
`TypeError` after the update has executed; the surrounding `except`
catches it, so the store effect stands and nothing propagates.) -/
def send_reminder_effect (outcome : NotifyOutcome) (s : Store) (aid : Nat) : Store :=
  match outcome with
  | .ok => (DatabaseManager.update_appointment s aid
      { status := none, reminder_sent := some true }).2
  | .failed => s
  | .raised => s

end AppointmentScheduler

/-!
Interleaving model for concurrent booking calls.

`CRUDHandler.create_appointment` performs a fixed sequence of store
round-trips (each one `.execute()` call, atomic at the store):

1. `get_time_slot` — followed by the local capacity comparison;
2. the `appointments` insert;
3. the `get_time_slot` inside `increment_time_slot_bookings`;
4. the `current_bookings` write inside `increment_time_slot_bookings`
   (on failure, the compensating `delete_appointment`).

`bookStep` is that sequence as a thread-state machine: one store
round-trip per step, locals carried between steps exactly as the Python
locals are.
-/

inductive BookPhase
  | atFetch
  | atInsert
  | atIncRead
  | atIncWrite
  | atCompDelete
  | atDone
deriving Repr, DecidableEq

/-- One in-flight `CRUDHandler.create_appointment` call: program counter
plus the caller's locals (`time_slot` capacity decision is consumed
immediately; `appointment["id"]` and the count read inside the increment
are kept). -/
structure BookThread where
  phase : BookPhase
  slot_id : Nat
  my_appt : Option Nat
  inc_base : Int
  result : Option Nat
deriving Repr, DecidableEq

def mkBookThread (slot_id : Nat) : BookThread :=
  { phase := .atFetch, slot_id := slot_id, my_appt := none
    inc_base := 0, result := none }

/-- One atomic store round-trip of a booking call (see the section
comment above for the correspondence with `CRUDHandler.create_appointment`). -/
def bookStep (s : Store) (t : BookThread) : Store × BookThread :=
  match t.phase with
  | .atFetch =>
      match DatabaseManager.get_time_slot s t.slot_id with
      | none => (s, { t with phase := .atDone, result := none })
      | some time_slot =>
          if time_slot.current_bookings.getD 0 ≥ time_slot.max_capacity.getD 5 then
            (s, { t with phase := .atDone, result := none })
          else (s, { t with phase := .atInsert })
  | .atInsert =>
      let (a, s1) := DatabaseManager.create_appointment s t.slot_id "confirmed"
      (s1, { t with phase := .atIncRead, my_appt := some a.id })
  | .atIncRead =>
      match DatabaseManager.get_time_slot s t.slot_id with
      | none => (s, { t with phase := .atCompDelete })
      | some slot =>
          (s, { t with phase := .atIncWrite, inc_base := slot.current_bookings.getD 0 })
  | .atIncWrite =>
      let (ok, s1) := DatabaseManager.update_slot_bookings s t.slot_id (t.inc_base + 1)
      if ok then (s1, { t with phase := .atDone, result := t.my_appt })
      else (s1, { t with phase := .atCompDelete })
  | .atCompDelete =>
      let (_, s1) := DatabaseManager.delete_appointment noFaults s (t.my_appt.getD 0)
      (s1, { t with phase := .atDone, result := none })
  | .atDone => (s, t)

/-- Run two booking calls under an explicit interleaving: `true` steps
the first thread, `false` the second. -/
def runRace (s : Store) (a b : BookThread) :
    List Bool → Store × BookThread × BookThread
  | [] => (s, a, b)
  | true :: rest =>
      let (s1, a1) := bookStep s a
      runRace s1 a1 b rest
  | false :: rest =>
      let (s1, b1) := bookStep s b
      runRace s1 a b1 rest

/-- A concrete store holding one slot at full capacity
(`current_bookings = max_capacity = 5`). -/
def fullSlotStore : Store :=
  { time_slots :=
      [{ id := 0, date := "2026-01-05", start_time := "09:00", end_time := "10:00"
         max_capacity := some 5, current_bookings := some 5 }]
    appointments := []
    next_id := 1 }

def emptyStore : Store := { time_slots := [], appointments := [], next_id := 0 }

/-- `n` successive calls of `increment_time_slot_bookings` on one slot. -/
def incrementN (s : Store) (slot_id : Nat) : Nat → Store
  | 0 => s
  | n + 1 =>
      incrementN (DatabaseManager.increment_time_slot_bookings noFaults s slot_id).2
        slot_id n

/-- One slot with `max_capacity = 1` and `current_bookings = 0`, the
starting state of the two-caller race. -/
def raceStore : Store :=
  { time_slots :=
      [{ id := 0, date := "2026-01-05", start_time := "09:00", end_time := "10:00"
         max_capacity := some 1, current_bookings := some 0 }]
    appointments := []
    next_id := 1 }

/-- The interleaving in which both callers pass the capacity check before
either one writes: A fetches, B fetches, A finishes, B finishes. -/
def raceSchedule : List Bool :=
  [true, false, true, true, true, false, false, false]

/-- One slot with spare capacity (`max_capacity = 5`,
`current_bookings = 0`) and no appointments. -/
def oneSlotStore : Store :=
  { time_slots :=
      [{ id := 0, date := "2026-01-05", start_time := "09:00", end_time := "10:00"
         max_capacity := some 5, current_bookings := some 0 }]
    appointments := []
    next_id := 1 }

/-- One slot with `current_bookings = 2` and two confirmed appointments
on it — the state reached by booking twice. -/
def twoBookedStore : Store :=
  { time_slots :=
      [{ id := 0, date := "2026-01-05", start_time := "09:00", end_time := "10:00"
         max_capacity := some 5, current_bookings := some 2 }]
    appointments :=
      [{ id := 1, time_slot_id := 0, status := "confirmed", reminder_sent := false },
       { id := 2, time_slot_id := 0, status := "confirmed", reminder_sent := false }]
    next_id := 3 }

/-- The availability augmentation as the claim states it: the stored
slot unchanged, `available_spots = max_capacity - current_bookings`
(with `MAX_APPOINTMENTS_PER_SLOT` and `0` as the defaults for missing
fields, and possibly negative), and `is_available` exactly when
`available_spots > 0`.  Compared against `get_available_slots` in the
theorem for C10. -/
def availableSlotSpec (t : TimeSlot) : AvailableSlot :=
  let spots : Int :=
    t.max_capacity.getD settings.MAX_APPOINTMENTS_PER_SLOT - t.current_bookings.getD 0
  { slot := t, available_spots := spots, is_available := decide (spots > 0) }

/-- One slot whose counter is at `0`, for exercising the decrement floor. -/
def zeroCountStore : Store :=
  { time_slots :=
      [{ id := 7, date := "2026-01-06", start_time := "10:00", end_time := "11:00"
         max_capacity := some 5, current_bookings := some 0 }]
    appointments := []
    next_id := 8 }

/-- One confirmed, not-yet-reminded appointment, for the scheduler step. -/
def reminderStore : Store :=
  { time_slots :=
      [{ id := 0, date := "2026-01-05", start_time := "09:00", end_time := "10:00"
         max_capacity := some 5, current_bookings := some 1 }]
    appointments :=
      [{ id := 3, time_slot_id := 0, status := "confirmed", reminder_sent := false }]
    next_id := 4 }

/-- A store with one slot already on a date, for the generation no-op. -/
def datedSlotStore : Store :=
  { time_slots :=
      [{ id := 4, date := "2026-02-01", start_time := "09:00", end_time := "10:00"
         max_capacity := some 5, current_bookings := some 3 }]
    appointments := []
    next_id := 5 }

/-- The first slot generated for a fresh date with duration 60. -/
def firstGenSlot : TimeSlot :=
  { id := 0, date := "2026-01-05", start_time := "09:00", end_time := "10:00"
    max_capacity := some 5, current_bookings := some 0 }

/-- C1: `increment_time_slot_bookings` is claimed to be a capacity-checked
update that returns `False` and leaves `current_bookings` unchanged when
`current_bookings ≥ max_capacity`.  The code has no such check: on a slot
with `current_bookings = max_capacity = 5` it returns `True` and writes
`current_bookings = 6`. -/
theorem C1_increment_has_no_capacity_check :
    (DatabaseManager.increment_time_slot_bookings noFaults fullSlotStore 0).1 = true ∧
    (DatabaseManager.get_time_slot
        (DatabaseManager.increment_time_slot_bookings noFaults fullSlotStore 0).2 0).map
      (fun t => t.current_bookings) = some (some 6) ∧
    (DatabaseManager.get_time_slot
        (DatabaseManager.increment_time_slot_bookings noFaults fullSlotStore 0).2 0).map
      (fun t => t.max_capacity) = some (some 5) := by
  decide

/-- C2: the capacity invariant `0 ≤ currentBookings ≤ maxCapacity` is
claimed to be preserved by every operation of the subsystem, the
increment included.  It is not: starting from an empty store, generating
the slots of a date (the first slot gets `max_capacity = 5`,
`current_bookings = 0`) and then applying `increment_time_slot_bookings`
six times to that slot drives `current_bookings` to `6 > 5`. -/
theorem C2_capacity_invariant_violated_by_increment :
    (DatabaseManager.get_time_slot
        (incrementN
          (DatabaseManager.generate_time_slots_for_date emptyStore "2026-01-05" 60).2
          0 6) 0).map
      (fun t => (t.current_bookings, t.max_capacity)) = some (some 6, some 5) := by
  decide

/-- C3: with `maxCapacity = 1` and `N = 2` concurrent booking attempts,
the claim demands exactly one success, one capacity-exceeded result and
a final `currentBookings = 1`.  Under the interleaving in which both
callers pass the capacity check before either one writes, both calls
return a created appointment and the slot ends at
`current_bookings = 2 > max_capacity = 1`. -/
theorem C3_race_two_successes_beyond_capacity :
    (runRace raceStore (mkBookThread 0) (mkBookThread 0) raceSchedule).2.1.result
        = some 1 ∧
    (runRace raceStore (mkBookThread 0) (mkBookThread 0) raceSchedule).2.2.result
        = some 2 ∧
    ((runRace raceStore (mkBookThread 0) (mkBookThread 0) raceSchedule).1.time_slots.map
      (fun t => (t.current_bookings, t.max_capacity))) = [(some 2, some 1)] := by
  decide

/-- C4: when the increment fails after the appointment insert,
`CRUDHandler.create_appointment` does delete the new row (lookup by its
id then finds nothing); but when that deletion also fails, the call still
returns the plain failure value `none` — the very value an ordinary
failure such as slot-not-found produces — while the confirmed appointment
row silently remains with no capacity reserved.  No distinct
compensation-failure result exists in the code. -/
theorem C4_compensation_failure_collapsed_to_none :
    (CRUDHandler.create_appointment
        { increment_fails := true, delete_fails := false } oneSlotStore 0).1 = none ∧
    DatabaseManager.get_appointment
      (CRUDHandler.create_appointment
        { increment_fails := true, delete_fails := false } oneSlotStore 0).2 1 = none ∧
    (CRUDHandler.create_appointment
        { increment_fails := true, delete_fails := true } oneSlotStore 0).1 = none ∧
    (CRUDHandler.create_appointment noFaults oneSlotStore 99).1 = none ∧
    DatabaseManager.get_appointment
      (CRUDHandler.create_appointment
        { increment_fails := true, delete_fails := true } oneSlotStore 0).2 1 =
      some { id := 1, time_slot_id := 0, status := "confirmed", reminder_sent := false } ∧
    ((CRUDHandler.create_appointment
        { increment_fails := true, delete_fails := true } oneSlotStore 0).2.time_slots.map
      (fun t => t.current_bookings)) = [some 0] := by
  decide

/-- C5: `cancel_appointment` is claimed to return `false` and change
nothing when the appointment is already cancelled.  The code never
checks the status: cancelling the same appointment twice returns `true`
both times and decrements the slot twice (`2 → 1 → 0`), releasing a
capacity unit the appointment no longer holds. -/
theorem C5_double_cancel_decrements_twice :
    (CRUDHandler.cancel_appointment twoBookedStore 1).1 = true ∧
    (DatabaseManager.get_appointment
        (CRUDHandler.cancel_appointment twoBookedStore 1).2 1).map
      (fun a => a.status) = some "cancelled" ∧
    ((CRUDHandler.cancel_appointment twoBookedStore 1).2.time_slots.map
      (fun t => t.current_bookings)) = [some 1] ∧
    (CRUDHandler.cancel_appointment
        (CRUDHandler.cancel_appointment twoBookedStore 1).2 1).1 = true ∧
    ((CRUDHandler.cancel_appointment
        (CRUDHandler.cancel_appointment twoBookedStore 1).2 1).2.time_slots.map
      (fun t => t.current_bookings)) = [some 0] := by
  decide

/-! Helper lemmas (shared; not tied to any single claim). -/

theorem find?_slots_update (sid : Nat) (n : Int) :
    ∀ (l : List TimeSlot) (slot : TimeSlot),
      l.find? (fun t => t.id = sid) = some slot →
      (l.map (fun t =>
          if t.id = sid then { t with current_bookings := some n } else t)).find?
          (fun t => t.id = sid)
        = some { slot with current_bookings := some n }
  | [], slot, h => by simp [List.find?] at h
  | u :: us, slot, h => by
      by_cases hu : u.id = sid
      · rw [List.find?_cons_of_pos _ (by simpa using hu)] at h
        obtain rfl : u = slot := Option.some.inj h
        simp only [List.map, if_pos hu]
        rw [List.find?_cons_of_pos _ (by simpa using hu)]
      · rw [List.find?_cons_of_neg _ (by simpa using hu)] at h
        simp only [List.map, if_neg hu]
        rw [List.find?_cons_of_neg _ (by simpa using hu)]
        exact find?_slots_update sid n us slot h

theorem any_id_of_find? {l : List TimeSlot} {sid : Nat} {slot : TimeSlot}
    (h : l.find? (fun t => t.id = sid) = some slot) :
    l.any (fun t => t.id = sid) = true := by
  have hmem : slot ∈ l := List.mem_of_find?_eq_some h
  have hp := @List.find?_some TimeSlot (fun t => decide (t.id = sid)) slot l h
  rw [List.any_eq_true]
  exact ⟨slot, hmem, hp⟩

theorem find?_appts_update (aid : Nat) (p : DatabaseManager.ApptPatch) :
    ∀ (l : List Appointment) (a : Appointment),
      l.find? (fun x => x.id = aid) = some a →
      (l.map (fun x =>
          if x.id = aid then DatabaseManager.applyPatch p x else x)).find?
          (fun x => x.id = aid)
        = some (DatabaseManager.applyPatch p a)
  | [], a, h => by simp [List.find?] at h
  | u :: us, a, h => by
      by_cases hu : u.id = aid
      · rw [List.find?_cons_of_pos _ (by simpa using hu)] at h
        obtain rfl : u = a := Option.some.inj h
        simp only [List.map, if_pos hu]
        rw [List.find?_cons_of_pos _ (by simpa [DatabaseManager.applyPatch] using hu)]
      · rw [List.find?_cons_of_neg _ (by simpa using hu)] at h
        simp only [List.map, if_neg hu]
        rw [List.find?_cons_of_neg _ (by simpa using hu)]
        exact find?_appts_update aid p us a h

theorem foldl_append_avail :
    ∀ (l : List TimeSlot) (acc : List AvailableSlot),
      l.foldl (fun a t => a ++ [availableSlotSpec t]) acc = acc ++ l.map availableSlotSpec
  | [], acc => by simp
  | t :: ts, acc => by
      simp only [List.foldl, List.map]
      rw [foldl_append_avail ts (acc ++ [availableSlotSpec t])]
      simp

/-- C6: `decrement_time_slot_bookings` on a slot present in the store
succeeds and floors the counter at zero: the new count is never
negative, a counter at `0` stays at `0`, and a positive counter
decreases by exactly one. -/
theorem C6_decrement_floors_at_zero (s : Store) (sid : Nat) (slot : TimeSlot)
    (hfind : DatabaseManager.get_time_slot s sid = some slot) :
    (DatabaseManager.decrement_time_slot_bookings s sid).1 = true ∧
    ∃ slot',
      DatabaseManager.get_time_slot
          (DatabaseManager.decrement_time_slot_bookings s sid).2 sid = some slot' ∧
      ∃ cb' : Int, slot'.current_bookings = some cb' ∧
        0 ≤ cb' ∧
        (slot.current_bookings.getD 0 = 0 → cb' = 0) ∧
        (0 < slot.current_bookings.getD 0 → cb' = slot.current_bookings.getD 0 - 1) := by
  have hget : DatabaseManager.get_time_slot s sid
      = s.time_slots.find? (fun t => t.id = sid) := rfl
  simp only [DatabaseManager.decrement_time_slot_bookings, hfind,
    DatabaseManager.update_slot_bookings]
  refine ⟨any_id_of_find? (hget ▸ hfind), ?_⟩
  refine ⟨{ slot with current_bookings := some (max 0 (slot.current_bookings.getD 0 - 1)) },
    ?_, ?_⟩
  · exact find?_slots_update sid _ s.time_slots slot (hget ▸ hfind)
  · refine ⟨max 0 (slot.current_bookings.getD 0 - 1), rfl, le_max_left _ _, ?_, ?_⟩
    · intro h0; rw [h0]; rfl
    · intro hpos; omega

/-- C6 witness: a slot with `current_bookings = 0` stays at `0`. -/
theorem C6_decrement_floors_at_zero_witness :
    DatabaseManager.get_time_slot zeroCountStore 7
        = some { id := 7, date := "2026-01-06", start_time := "10:00",
                 end_time := "11:00", max_capacity := some 5,
                 current_bookings := some 0 } ∧
    ((DatabaseManager.decrement_time_slot_bookings zeroCountStore 7).1 = true ∧
     ∃ slot',
       DatabaseManager.get_time_slot
           (DatabaseManager.decrement_time_slot_bookings zeroCountStore 7).2 7
         = some slot' ∧
       ∃ cb' : Int, slot'.current_bookings = some cb' ∧
         0 ≤ cb' ∧
         (({ id := 7, date := "2026-01-06", start_time := "10:00",
             end_time := "11:00", max_capacity := some 5,
             current_bookings := some 0 } : TimeSlot).current_bookings.getD 0 = 0 →
           cb' = 0) ∧
         (0 < ({ id := 7, date := "2026-01-06", start_time := "10:00",
                 end_time := "11:00", max_capacity := some 5,
                 current_bookings := some 0 } : TimeSlot).current_bookings.getD 0 →
           cb' = ({ id := 7, date := "2026-01-06", start_time := "10:00",
                    end_time := "11:00", max_capacity := some 5,
                    current_bookings := some 0 } : TimeSlot).current_bookings.getD 0 - 1)) :=
  ⟨by decide, C6_decrement_floors_at_zero zeroCountStore 7 _ (by decide)⟩

/-- C9: the reminder step flips `reminder_sent` to `true` exactly when
the notifier call returns `True`; when it returns `False` or raises, the
store is untouched (the failure is only logged), so the flag never moves
except `false → true` on a successful notification. -/
theorem C9_reminder_flag_advances_only_on_success (s : Store) (aid : Nat)
    (a : Appointment) (h : DatabaseManager.get_appointment s aid = some a)
    (outcome : NotifyOutcome) :
    (outcome ≠ NotifyOutcome.ok →
      AppointmentScheduler.send_reminder_effect outcome s aid = s) ∧
    (outcome = NotifyOutcome.ok →
      DatabaseManager.get_appointment
          (AppointmentScheduler.send_reminder_effect outcome s aid) aid
        = some { a with reminder_sent := true }) ∧
    (∀ b, DatabaseManager.get_appointment
          (AppointmentScheduler.send_reminder_effect outcome s aid) aid = some b →
      b.reminder_sent = (a.reminder_sent || decide (outcome = NotifyOutcome.ok))) := by
  cases outcome with
  | ok =>
      have hup : DatabaseManager.get_appointment
          (AppointmentScheduler.send_reminder_effect NotifyOutcome.ok s aid) aid
          = some (DatabaseManager.applyPatch
              { status := none, reminder_sent := some true } a) :=
        find?_appts_update aid _ s.appointments a h
      refine ⟨fun hc => absurd rfl hc, fun _ => ?_, fun b hb => ?_⟩
      · rw [hup]; rfl
      · rw [hup] at hb
        obtain rfl := (Option.some.inj hb).symm
        simp [DatabaseManager.applyPatch]
  | failed =>
      refine ⟨fun _ => rfl, fun hc => absurd hc (by decide), fun b hb => ?_⟩
      have hb' : DatabaseManager.get_appointment s aid = some b := hb
      rw [h] at hb'
      obtain rfl := (Option.some.inj hb').symm
      simp
  | raised =>
      refine ⟨fun _ => rfl, fun hc => absurd hc (by decide), fun b hb => ?_⟩
      have hb' : DatabaseManager.get_appointment s aid = some b := hb
      rw [h] at hb'
      obtain rfl := (Option.some.inj hb').symm
      simp

/-- C9 witness: one confirmed, not-yet-reminded appointment and a
successful notification. -/
theorem C9_reminder_flag_witness :
    DatabaseManager.get_appointment reminderStore 3
        = some { id := 3, time_slot_id := 0, status := "confirmed",
                 reminder_sent := false } ∧
    ((NotifyOutcome.ok ≠ NotifyOutcome.ok →
        AppointmentScheduler.send_reminder_effect NotifyOutcome.ok reminderStore 3
          = reminderStore) ∧
     (NotifyOutcome.ok = NotifyOutcome.ok →
        DatabaseManager.get_appointment
            (AppointmentScheduler.send_reminder_effect NotifyOutcome.ok reminderStore 3) 3
          = some { id := 3, time_slot_id := 0, status := "confirmed",
                   reminder_sent := true }) ∧
     (∀ b, DatabaseManager.get_appointment
            (AppointmentScheduler.send_reminder_effect NotifyOutcome.ok reminderStore 3) 3
          = some b →
        b.reminder_sent = (false || decide (NotifyOutcome.ok = NotifyOutcome.ok)))) :=
  ⟨by decide,
   C9_reminder_flag_advances_only_on_success reminderStore 3
     { id := 3, time_slot_id := 0, status := "confirmed", reminder_sent := false }
     (by decide) NotifyOutcome.ok⟩

/-- C10: `get_available_slots` returns, for each stored slot of the
date, exactly the stored record augmented by
`available_spots = max_capacity - current_bookings` (defaults
`MAX_APPOINTMENTS_PER_SLOT` and `0` for missing fields; the value is an
integer and may be negative) and `is_available ↔ available_spots > 0`,
with every stored field passed through unchanged — the augmentation
`availableSlotSpec` is worded from the claim. -/
theorem C10_available_slots_match_spec (s : Store) (d : String) :
    DatabaseManager.get_available_slots s d
      = (DatabaseManager.get_time_slots_by_date s d).map availableSlotSpec := by
  show (DatabaseManager.get_time_slots_by_date s d).foldl
      (fun a t => a ++ [availableSlotSpec t]) []
    = (DatabaseManager.get_time_slots_by_date s d).map availableSlotSpec
  rw [foldl_append_avail]
  rfl

theorem insertByStartTime_perm (t : TimeSlot) :
    ∀ l : List TimeSlot, (insertByStartTime t l).Perm (t :: l)
  | [] => List.Perm.refl _
  | u :: us => by
      simp only [insertByStartTime]
      split
      · exact List.Perm.refl _
      · exact ((insertByStartTime_perm t us).cons u).trans (List.Perm.swap t u us)

theorem sortByStartTime_perm : ∀ l : List TimeSlot, (sortByStartTime l).Perm l
  | [] => List.Perm.refl _
  | t :: ts =>
      (insertByStartTime_perm t (sortByStartTime ts)).trans
        ((sortByStartTime_perm ts).cons t)

theorem sortByStartTime_eq_nil {l : List TimeSlot} (h : sortByStartTime l = []) :
    l = [] := by
  have hp := sortByStartTime_perm l
  rw [h] at hp
  exact hp.symm.eq_nil

theorem genLoop_slots_spec (d : String) (dur : Nat) :
    ∀ (fuel current endM : Nat) (s : Store) (t : TimeSlot),
      t ∈ (DatabaseManager.genLoop d dur fuel current endM s).1 →
      t.date = d ∧ t.current_bookings = some 0 ∧
        t.max_capacity = some settings.MAX_APPOINTMENTS_PER_SLOT ∧
        ∃ st, t.start_time = fmtHHMM st ∧ t.end_time = fmtHHMM (st + dur) ∧
          st + dur ≤ endM := by
  intro fuel
  induction fuel with
  | zero =>
      intro current endM s t ht
      simp [DatabaseManager.genLoop] at ht
  | succ n ih =>
      intro current endM s t ht
      simp only [DatabaseManager.genLoop] at ht
      by_cases h1 : current < endM
      · rw [if_pos h1] at ht
        by_cases h2 : current + dur ≤ endM
        · rw [if_pos h2] at ht
          simp only [DatabaseManager.create_time_slot, List.mem_cons] at ht
          rcases ht with rfl | ht
          · exact ⟨rfl, rfl, rfl, current, rfl, rfl, h2⟩
          · exact ih (current + dur) endM _ t ht
        · rw [if_neg h2] at ht
          exact ih (current + dur) endM s t ht
      · rw [if_neg h1] at ht
        simp at ht

theorem genLoop_store_slots (d : String) (dur : Nat) :
    ∀ (fuel current endM : Nat) (s : Store),
      (DatabaseManager.genLoop d dur fuel current endM s).2.time_slots
        = s.time_slots ++ (DatabaseManager.genLoop d dur fuel current endM s).1 := by
  intro fuel
  induction fuel with
  | zero =>
      intro current endM s
      simp [DatabaseManager.genLoop]
  | succ n ih =>
      intro current endM s
      simp only [DatabaseManager.genLoop]
      by_cases h1 : current < endM
      · rw [if_pos h1]
        by_cases h2 : current + dur ≤ endM
        · rw [if_pos h2]
          simp only [DatabaseManager.create_time_slot]
          rw [ih]
          simp
        · rw [if_neg h2]
          exact ih (current + dur) endM s
      · rw [if_neg h1]
        simp

theorem genLoop_nil_store (d : String) (dur : Nat) :
    ∀ (fuel current endM : Nat) (s : Store),
      (DatabaseManager.genLoop d dur fuel current endM s).1 = [] →
      (DatabaseManager.genLoop d dur fuel current endM s).2 = s := by
  intro fuel
  induction fuel with
  | zero =>
      intro current endM s _
      simp [DatabaseManager.genLoop]
  | succ n ih =>
      intro current endM s h
      simp only [DatabaseManager.genLoop] at h ⊢
      by_cases h1 : current < endM
      · rw [if_pos h1] at h ⊢
        by_cases h2 : current + dur ≤ endM
        · rw [if_pos h2] at h ⊢
          simp only [DatabaseManager.create_time_slot] at h
          exact absurd h (List.cons_ne_nil _ _)
        · rw [if_neg h2] at h ⊢
          exact ih (current + dur) endM s h
      · rw [if_neg h1]

/-- C7: slot generation is idempotent per date.  For a date that already
has slots, generation returns the existing slots unchanged and does not
touch the store; and for every store, generating twice with the same
date and (positive — the source loop does not terminate for a
non-positive duration) duration leaves the store of the first run
unchanged and returns the same slot set (a permutation: the second run
re-reads the slots through the store's `order("start_time")`). -/
theorem C7_generation_idempotent (s : Store) (d : String) (dur : Nat)
    (hdur : 1 ≤ dur) :
    (DatabaseManager.get_time_slots_by_date s d ≠ [] →
      DatabaseManager.generate_time_slots_for_date s d dur
        = (DatabaseManager.get_time_slots_by_date s d, s)) ∧
    ((DatabaseManager.generate_time_slots_for_date
        (DatabaseManager.generate_time_slots_for_date s d dur).2 d dur).2
      = (DatabaseManager.generate_time_slots_for_date s d dur).2 ∧
     (DatabaseManager.generate_time_slots_for_date
        (DatabaseManager.generate_time_slots_for_date s d dur).2 d dur).1.Perm
      (DatabaseManager.generate_time_slots_for_date s d dur).1) := by
  have noop : ∀ w : Store, DatabaseManager.get_time_slots_by_date w d ≠ [] →
      DatabaseManager.generate_time_slots_for_date w d dur
        = (DatabaseManager.get_time_slots_by_date w d, w) := by
    intro w hw
    simp only [DatabaseManager.generate_time_slots_for_date]
    rw [if_neg hw]
  refine ⟨noop s, ?_⟩
  by_cases hex : DatabaseManager.get_time_slots_by_date s d = []
  · have hgen : DatabaseManager.generate_time_slots_for_date s d dur
        = DatabaseManager.genLoop d dur 1081 540 1080 s := by
      simp only [DatabaseManager.generate_time_slots_for_date]
      rw [if_pos hex]
      rfl
    by_cases hl1 : (DatabaseManager.genLoop d dur 1081 540 1080 s).1 = []
    · have hs1 : (DatabaseManager.genLoop d dur 1081 540 1080 s).2 = s :=
        genLoop_nil_store d dur 1081 540 1080 s hl1
      rw [hgen, hs1, hgen, hs1]
      exact ⟨rfl, List.Perm.refl _⟩
    · have hslots : (DatabaseManager.genLoop d dur 1081 540 1080 s).2.time_slots
          = s.time_slots ++ (DatabaseManager.genLoop d dur 1081 540 1080 s).1 :=
        genLoop_store_slots d dur 1081 540 1080 s
      have hfs : s.time_slots.filter (fun t => t.date = d) = [] :=
        sortByStartTime_eq_nil hex
      have hfl : (DatabaseManager.genLoop d dur 1081 540 1080 s).1.filter
            (fun t => t.date = d)
          = (DatabaseManager.genLoop d dur 1081 540 1080 s).1 := by
        apply List.filter_eq_self.mpr
        intro t ht
        have hd := (genLoop_slots_spec d dur 1081 540 1080 s t ht).1
        simp [hd]
      have hby : DatabaseManager.get_time_slots_by_date
            (DatabaseManager.genLoop d dur 1081 540 1080 s).2 d
          = sortByStartTime (DatabaseManager.genLoop d dur 1081 540 1080 s).1 := by
        simp only [DatabaseManager.get_time_slots_by_date, hslots, List.filter_append,
          hfs, hfl, List.nil_append]
      have hne : DatabaseManager.get_time_slots_by_date
            (DatabaseManager.genLoop d dur 1081 540 1080 s).2 d ≠ [] := by
        rw [hby]
        intro hcon
        exact hl1 (sortByStartTime_eq_nil hcon)
      have h2 := noop _ hne
      rw [hgen, h2, hby]
      exact ⟨rfl, sortByStartTime_perm _⟩
  · have h1 := noop s hex
    have h2 : DatabaseManager.generate_time_slots_for_date
          (DatabaseManager.get_time_slots_by_date s d, s).2 d dur
        = (DatabaseManager.get_time_slots_by_date
            (DatabaseManager.get_time_slots_by_date s d, s).2 d,
           (DatabaseManager.get_time_slots_by_date s d, s).2) := noop s hex
    rw [h1, h2]
    exact ⟨rfl, List.Perm.refl _⟩

/-- C7 witness: a date that already has a slot is a no-op. -/
theorem C7_generation_idempotent_witness :
    (1 ≤ 60 ∧ DatabaseManager.get_time_slots_by_date datedSlotStore "2026-02-01" ≠ []) ∧
    DatabaseManager.generate_time_slots_for_date datedSlotStore "2026-02-01" 60
      = (DatabaseManager.get_time_slots_by_date datedSlotStore "2026-02-01",
         datedSlotStore) :=
  ⟨⟨by decide, by decide⟩,
   (C7_generation_idempotent datedSlotStore "2026-02-01" 60 (by decide)).1 (by decide)⟩

/-- C8: with the configured working hours `09:00`–`18:00` and duration
60, generation on a date with no slots produces exactly the nine start
times `09:00`…`17:00` and none at `18:00`; and in general (any duration,
any fresh date) a slot is emitted only with its full duration and only
when its end, `start + duration` minutes, does not exceed the `18 * 60`
minute mark — a trailing partial slot is dropped, never truncated — and
every emitted slot carries `current_bookings = 0` and
`max_capacity = MAX_APPOINTMENTS_PER_SLOT`. -/
theorem C8_generation_window_and_defaults :
    ((DatabaseManager.generate_time_slots_for_date emptyStore "2026-01-05" 60).1.map
        (fun t => t.start_time)
      = ["09:00", "10:00", "11:00", "12:00", "13:00", "14:00", "15:00",
         "16:00", "17:00"]) ∧
    ((DatabaseManager.generate_time_slots_for_date emptyStore "2026-01-05" 60).1.length
      = 9) ∧
    (¬ "18:00" ∈ (DatabaseManager.generate_time_slots_for_date emptyStore
        "2026-01-05" 60).1.map (fun t => t.start_time)) ∧
    (∀ (s : Store) (d : String) (dur : Nat) (t : TimeSlot),
      DatabaseManager.get_time_slots_by_date s d = [] →
      t ∈ (DatabaseManager.generate_time_slots_for_date s d dur).1 →
      t.current_bookings = some 0 ∧
      t.max_capacity = some settings.MAX_APPOINTMENTS_PER_SLOT ∧
      ∃ st, t.start_time = fmtHHMM st ∧ t.end_time = fmtHHMM (st + dur) ∧
        st + dur ≤ 18 * 60) := by
  refine ⟨by decide, by decide, by decide, ?_⟩
  intro s d dur t hex ht
  have hgen : DatabaseManager.generate_time_slots_for_date s d dur
      = DatabaseManager.genLoop d dur 1081 540 1080 s := by
    simp only [DatabaseManager.generate_time_slots_for_date]
    rw [if_pos hex]
    rfl
  rw [hgen] at ht
  have h := genLoop_slots_spec d dur 1081 540 1080 s t ht
  exact ⟨h.2.1, h.2.2.1, h.2.2.2⟩

/-- C8 witness: the first generated slot of the fresh date. -/
theorem C8_generation_window_witness :
    (DatabaseManager.get_time_slots_by_date emptyStore "2026-01-05" = [] ∧
     firstGenSlot
       ∈ (DatabaseManager.generate_time_slots_for_date emptyStore "2026-01-05" 60).1) ∧
    (firstGenSlot.current_bookings = some 0 ∧
     firstGenSlot.max_capacity = some settings.MAX_APPOINTMENTS_PER_SLOT ∧
     ∃ st, firstGenSlot.start_time = fmtHHMM st ∧
       firstGenSlot.end_time = fmtHHMM (st + 60) ∧
       st + 60 ≤ 18 * 60) :=
  ⟨⟨by decide, by decide⟩,
   C8_generation_window_and_defaults.2.2.2 emptyStore "2026-01-05" 60 firstGenSlot
     (by decide) (by decide)⟩
